import Mathlib

/-
  Verification of the therapies_api repository: a FastAPI service (src/app.py)
  with two pydantic report schemas (src/therapy_models.py, src/rad_models.py).

  The external collaborators (the OCR converter from pdf_to_markdown and the
  LLM extraction functions from md_to_json) are network clients whose code is
  out of scope; the handlers receive their outcomes as oracle values
  (CallResult), exactly at the call sites where app.py invokes them.

  Handlers are embedded as pure functions from a request environment to a
  result paired with an event trace recording the observable side effects
  (temp-file creation, external calls, validation attempts, scheduled
  cleanup), mirroring src/app.py line by line.
-/

namespace TherapiesApi

/-- A calendar date value, as used by the datetime.date fields of the
pydantic models. -/
structure PyDate where
  year : Nat
  month : Nat
  day : Nat
deriving Repr, DecidableEq

/-- JSON-like values: the loosely typed data that the extraction client
returns and that model_dump produces. -/
inductive Value where
  | vstr (s : String)
  | vint (n : Int)
  | vfloat (q : Rat)
  | vbool (b : Bool)
  | vdate (d : PyDate)
  | vlist (vs : List Value)
  | vobj (fields : List (String × Value))
  | vnone
deriving Repr

/-- A raw extraction result: a mapping from field names to loosely typed
values (a Python dict). -/
def RawMap : Type := List (String × Value)

/-- Dictionary lookup on a raw mapping. -/
def getField (m : RawMap) (k : String) : Option Value :=
  (m.find? (fun p => p.1 == k)).map (fun p => p.2)

/-- Coercion of a raw value to str, modelling pydantic validation of a
str field. -/
def asStr : Value → Option String
  | .vstr s => some s
  | _ => none

/-- Coercion of a raw value to int, modelling pydantic lax validation of an
int field: ints, integral floats and integer-shaped strings are accepted. -/
def asInt : Value → Option Int
  | .vint n => some n
  | .vfloat q => if q.den == 1 then some q.num else none
  | .vstr s => s.toInt?
  | _ => none

/-- Coercion of a raw value to float, modelling pydantic lax validation of a
float field: floats and ints are accepted. -/
def asFloat : Value → Option Rat
  | .vfloat q => some q
  | .vint n => some (n : Rat)
  | _ => none

/-- Coercion of a raw value to bool, modelling pydantic lax validation of a
bool field: bools and the ints 0 and 1 are accepted. -/
def asBool : Value → Option Bool
  | .vbool b => some b
  | .vint 0 => some false
  | .vint 1 => some true
  | _ => none

/-- Coercion of a raw value to a date, modelling pydantic validation of a
date field. -/
def asDate : Value → Option PyDate
  | .vdate d => some d
  | _ => none

/-- Validation of a required field: the key must be present and the value
must coerce; anything else is a validation error. -/
def reqField (m : RawMap) (k : String) (coe : Value → Option α) : Option α :=
  (getField m k).bind coe

/-- Validation of an optional field (pydantic default None): an absent key or
an explicit null yields none; a present value must coerce. -/
def optField (m : RawMap) (k : String) (coe : Value → Option α) : Option (Option α) :=
  match getField m k with
  | none => some none
  | some .vnone => some none
  | some v => (coe v).map some

/-- One administered drug, from src/therapy_models.py (DrugAdministered). -/
structure DrugAdministered where
  drug_name : String
  dosage : Option Rat
  unit : Option String
deriving Repr

/-- The therapy report record, from src/therapy_models.py (TherapyReport). -/
structure TherapyReport where
  patient_id : String
  therapy_type : String
  administration_route : String
  drugs_administered : List DrugAdministered
  first_date_of_therapy : PyDate
  number_of_cycles : Int
  cycle_interval_days : Int
  adverse_event_observed : Bool
  adverse_event_medication : Option String
  comment : Option String
  hospital_name : String
  hospital_location : String
deriving Repr

/-- The radiation therapy report record, from src/rad_models.py
(RadiationTherapyReport). -/
structure RadiationTherapyReport where
  patient_name : String
  test_therapy : String
  radiation_type : String
  start_date : PyDate
  end_date : PyDate
  fractions : Int
  dosage : Rat
  unit : String
  area_treated : String
  events : Option String
  medication : Option String
  lab_name : String
  lab_location : String
  comment : Option String
deriving Repr

/-- Validation of one element of drugs_administered: it must be a dict with
a valid drug_name and optional dosage and unit. -/
def validateDrug : Value → Option DrugAdministered
  | .vobj f => do
      let name ← reqField f "drug_name" asStr
      let dose ← optField f "dosage" asFloat
      let u ← optField f "unit" asStr
      some ⟨name, dose, u⟩
  | _ => none

/-- Pydantic construction TherapyReport(**m): succeeds exactly when all
required fields are present and coercible and all present optional fields
coerce; models the try block of src/app.py lines 145 to 147. -/
def therapyValidate (m : RawMap) : Option TherapyReport := do
  let pid ← reqField m "patient_id" asStr
  let tt ← reqField m "therapy_type" asStr
  let ar ← reqField m "administration_route" asStr
  let drugsRaw ← getField m "drugs_administered"
  let drugs ← match drugsRaw with
              | .vlist vs => vs.mapM validateDrug
              | _ => none
  let fd ← reqField m "first_date_of_therapy" asDate
  let nc ← reqField m "number_of_cycles" asInt
  let ci ← reqField m "cycle_interval_days" asInt
  let ae ← reqField m "adverse_event_observed" asBool
  let aem ← optField m "adverse_event_medication" asStr
  let cmt ← optField m "comment" asStr
  let hn ← reqField m "hospital_name" asStr
  let hl ← reqField m "hospital_location" asStr
  some ⟨pid, tt, ar, drugs, fd, nc, ci, ae, aem, cmt, hn, hl⟩

/-- Pydantic construction RadiationTherapyReport(**m), models the try block
of src/app.py lines 225 to 227. -/
def radiationValidate (m : RawMap) : Option RadiationTherapyReport := do
  let pn ← reqField m "patient_name" asStr
  let tt ← reqField m "test_therapy" asStr
  let rt ← reqField m "radiation_type" asStr
  let sd ← reqField m "start_date" asDate
  let ed ← reqField m "end_date" asDate
  let fr ← reqField m "fractions" asInt
  let dos ← reqField m "dosage" asFloat
  let u ← reqField m "unit" asStr
  let at_ ← reqField m "area_treated" asStr
  let ev ← optField m "events" asStr
  let med ← optField m "medication" asStr
  let ln ← reqField m "lab_name" asStr
  let ll ← reqField m "lab_location" asStr
  let cmt ← optField m "comment" asStr
  some ⟨pn, tt, rt, sd, ed, fr, dos, u, at_, ev, med, ln, ll, cmt⟩

/-- Serialization of an optional value in a model dump. -/
def dumpOpt (f : α → Value) : Option α → Value
  | none => .vnone
  | some a => f a

/-- model_dump of one DrugAdministered. -/
def DrugAdministered.model_dump (d : DrugAdministered) : Value :=
  .vobj [("drug_name", .vstr d.drug_name),
         ("dosage", dumpOpt .vfloat d.dosage),
         ("unit", dumpOpt .vstr d.unit)]

/-- model_dump of a TherapyReport: every field in declaration order,
optional fields dumped as null when absent. -/
def TherapyReport.model_dump (r : TherapyReport) : RawMap :=
  [("patient_id", .vstr r.patient_id),
   ("therapy_type", .vstr r.therapy_type),
   ("administration_route", .vstr r.administration_route),
   ("drugs_administered", .vlist (r.drugs_administered.map DrugAdministered.model_dump)),
   ("first_date_of_therapy", .vdate r.first_date_of_therapy),
   ("number_of_cycles", .vint r.number_of_cycles),
   ("cycle_interval_days", .vint r.cycle_interval_days),
   ("adverse_event_observed", .vbool r.adverse_event_observed),
   ("adverse_event_medication", dumpOpt .vstr r.adverse_event_medication),
   ("comment", dumpOpt .vstr r.comment),
   ("hospital_name", .vstr r.hospital_name),
   ("hospital_location", .vstr r.hospital_location)]

/-- model_dump of a RadiationTherapyReport. -/
def RadiationTherapyReport.model_dump (r : RadiationTherapyReport) : RawMap :=
  [("patient_name", .vstr r.patient_name),
   ("test_therapy", .vstr r.test_therapy),
   ("radiation_type", .vstr r.radiation_type),
   ("start_date", .vdate r.start_date),
   ("end_date", .vdate r.end_date),
   ("fractions", .vint r.fractions),
   ("dosage", .vfloat r.dosage),
   ("unit", .vstr r.unit),
   ("area_treated", .vstr r.area_treated),
   ("events", dumpOpt .vstr r.events),
   ("medication", dumpOpt .vstr r.medication),
   ("lab_name", .vstr r.lab_name),
   ("lab_location", .vstr r.lab_location),
   ("comment", dumpOpt .vstr r.comment)]

/-- Outcome of a call into an external collaborator: either a returned value
or a raised exception carrying a message. -/
inductive CallResult (α : Type) where
  | ok (val : α)
  | raises (msg : String)
deriving Repr

/-- ASCII lowercasing of one character, modelling Python str.lower on the
filenames this service sees. -/
def pyLowerChar (c : Char) : Char :=
  if ('A' ≤ c && c ≤ 'Z') then Char.ofNat (c.toNat + 32) else c

/-- Python str.lower, as a map over the characters of the string. -/
def pyLower (s : String) : String :=
  ⟨s.data.map pyLowerChar⟩

/-- Python str.endswith: suffix test on the character lists. -/
def pyEndsWith (s suffix_ : String) : Bool :=
  suffix_.data.isSuffixOf s.data

/-- The characters Python str.strip removes. -/
def pyIsSpace (c : Char) : Bool :=
  c == ' ' || c == '\t' || c == '\n' || c == '\r' || c == '\x0b' || c == '\x0c'

/-- Python truthiness of s.strip() negated: true exactly when the string is
empty or all-whitespace (so `not s.strip()` holds). -/
def pyStripIsEmpty (s : String) : Bool :=
  s.data.all pyIsSpace

/-- Python truthiness of os.environ.get: None and the empty string are
falsy, every other string is truthy. -/
def pyTruthyStr : Option String → Bool
  | none => false
  | some s => !s.data.isEmpty

/-- The validation check of src/app.py line 118 and line 198, negated:
the filename passes when it is present, nonempty (truthy) and its lowercase
form ends in .pdf. -/
def filenameOk : Option String → Bool
  | none => false
  | some f => (!f.data.isEmpty) && pyEndsWith (pyLower f) ".pdf"

/-- Observable side effects of one request, in the order they happen. -/
inductive Event where
  | tempFileCreated (path : String) (content : List Nat)
  | converterCalled (path : String) (content : List Nat)
  | extractorCalled (text : String)
  | validationAttempted (m : RawMap)
  | validationWarned
  | cleanupScheduled (path : String)

/-- Everything a single request depends on: the upload, the temp path the
OS hands out, wall time elapsed at the measurement point, and the outcomes
of the three external calls (get_converter, pdf_to_markdown_text and the
extraction function), which the handler consumes in program order. The
extraction value is an Option so that both None and a dict can come back. -/
structure RequestEnv where
  filename : Option String
  content : List Nat
  tempPath : String
  elapsedSeconds : Rat
  getConverterResult : CallResult Unit
  convertResult : CallResult String
  extractResult : CallResult (Option RawMap)

/-- The TherapyResponse model of src/app.py lines 41 to 45. -/
structure TherapyResponse where
  success : Bool
  message : String
  data : Option RawMap
  processing_time : Option Rat

/-- The RadiationResponse model of src/app.py lines 47 to 51. -/
structure RadiationResponse where
  success : Bool
  message : String
  data : Option RawMap
  processing_time : Option Rat

/-- How a handler exits: a successful response body, or an HTTPException
with a status code and detail string. -/
inductive HandlerResult (ρ : Type) where
  | success (resp : ρ)
  | httpError (status : Nat) (detail : String)

/-- The POST /therapies handler, src/app.py lines 100 to 177, embedded line
by line. An HTTPException raised inside the try block is re-raised by the
bare `except HTTPException` branch without scheduling cleanup; only the
success path and the generic `except Exception` branch schedule cleanup. -/
def process_therapy_report (env : RequestEnv) : HandlerResult TherapyResponse × List Event :=
  if !(filenameOk env.filename) then
    (.httpError 400 "Only PDF files are supported", [])
  else
    let fname := env.filename.getD ""
    let evSaved : List Event := [.tempFileCreated env.tempPath env.content]
    match env.getConverterResult with
    | .raises e =>
        (.httpError 500 ("Internal server error: " ++ e),
         evSaved ++ [.cleanupScheduled env.tempPath])
    | .ok _ =>
      let evConv := evSaved ++ [.converterCalled env.tempPath env.content]
      match env.convertResult with
      | .raises e =>
          (.httpError 500 ("Internal server error: " ++ e),
           evConv ++ [.cleanupScheduled env.tempPath])
      | .ok markdown_text =>
        if pyStripIsEmpty markdown_text then
          (.httpError 400 "Failed to extract text from PDF", evConv)
        else
          let evExt := evConv ++ [.extractorCalled markdown_text]
          match env.extractResult with
          | .raises e =>
              (.httpError 500 ("Internal server error: " ++ e),
               evExt ++ [.cleanupScheduled env.tempPath])
          | .ok .none =>
              (.httpError 400 "Failed to extract structured data from document", evExt)
          | .ok (.some m) =>
            if m.isEmpty then
              (.httpError 400 "Failed to extract structured data from document", evExt)
            else
              let evVal := evExt ++ [.validationAttempted m]
              match therapyValidate m with
              | some report =>
                  (.success ⟨true, "Successfully processed therapy report: " ++ fname,
                     some report.model_dump, some env.elapsedSeconds⟩,
                   evVal ++ [.cleanupScheduled env.tempPath])
              | none =>
                  (.success ⟨true, "Successfully processed therapy report: " ++ fname,
                     some m, some env.elapsedSeconds⟩,
                   evVal ++ [.validationWarned, .cleanupScheduled env.tempPath])

/-- The POST /radiation handler, src/app.py lines 180 to 257, identical to
the therapy handler up to the extraction function, the pydantic model and
the message strings. -/
def process_radiation_report (env : RequestEnv) : HandlerResult RadiationResponse × List Event :=
  if !(filenameOk env.filename) then
    (.httpError 400 "Only PDF files are supported", [])
  else
    let fname := env.filename.getD ""
    let evSaved : List Event := [.tempFileCreated env.tempPath env.content]
    match env.getConverterResult with
    | .raises e =>
        (.httpError 500 ("Internal server error: " ++ e),
         evSaved ++ [.cleanupScheduled env.tempPath])
    | .ok _ =>
      let evConv := evSaved ++ [.converterCalled env.tempPath env.content]
      match env.convertResult with
      | .raises e =>
          (.httpError 500 ("Internal server error: " ++ e),
           evConv ++ [.cleanupScheduled env.tempPath])
      | .ok markdown_text =>
        if pyStripIsEmpty markdown_text then
          (.httpError 400 "Failed to extract text from PDF", evConv)
        else
          let evExt := evConv ++ [.extractorCalled markdown_text]
          match env.extractResult with
          | .raises e =>
              (.httpError 500 ("Internal server error: " ++ e),
               evExt ++ [.cleanupScheduled env.tempPath])
          | .ok .none =>
              (.httpError 400 "Failed to extract structured data from document", evExt)
          | .ok (.some m) =>
            if m.isEmpty then
              (.httpError 400 "Failed to extract structured data from document", evExt)
            else
              let evVal := evExt ++ [.validationAttempted m]
              match radiationValidate m with
              | some report =>
                  (.success ⟨true, "Successfully processed radiation therapy report: " ++ fname,
                     some report.model_dump, some env.elapsedSeconds⟩,
                   evVal ++ [.cleanupScheduled env.tempPath])
              | none =>
                  (.success ⟨true, "Successfully processed radiation therapy report: " ++ fname,
                     some m, some env.elapsedSeconds⟩,
                   evVal ++ [.validationWarned, .cleanupScheduled env.tempPath])

/-- True when the trace contains a scheduled cleanup. -/
def schedulesCleanup (evs : List Event) : Bool :=
  evs.any fun e => match e with | .cleanupScheduled _ => true | _ => false

/-- True when the trace contains a temp-file creation. -/
def createsTempFile (evs : List Event) : Bool :=
  evs.any fun e => match e with | .tempFileCreated _ _ => true | _ => false

/-- True when the trace contains a call to the extraction client. -/
def callsExtractor (evs : List Event) : Bool :=
  evs.any fun e => match e with | .extractorCalled _ => true | _ => false

/-- True when the trace contains a schema-validation attempt. -/
def attemptsValidation (evs : List Event) : Bool :=
  evs.any fun e => match e with | .validationAttempted _ => true | _ => false

/-- The converter client handle, holding the API key it was constructed
with (MarkdownConverter from pdf_to_markdown; its construction arguments are
all that get_converter in src/app.py depends on). -/
structure MarkdownConverter where
  api_key : String
deriving Repr, DecidableEq

/-- get_converter, src/app.py lines 60 to 68: reads the module-level
_converter singleton and the MISTRAL_API_KEY environment value, returns the
handle paired with the new singleton state, or raises ValueError.
The state is threaded explicitly: g is the value of _converter before the
call, the second component of the result is its value after. -/
def get_converter (g : Option MarkdownConverter) (envKey : Option String) :
    Except String (MarkdownConverter × Option MarkdownConverter) :=
  match g with
  | some c => .ok (c, some c)
  | none =>
      if !(pyTruthyStr envKey) then
        .error "MISTRAL_API_KEY environment variable not set."
      else
        let c : MarkdownConverter := ⟨envKey.getD ""⟩
        .ok (c, some c)

/-- Client-construction attempts observable from the health check. -/
inductive HEvent where
  | attemptedMistralClient
  | attemptedConverter
deriving Repr, DecidableEq

/-- The HealthResponse model of src/app.py lines 53 to 55. -/
structure HealthResponse where
  status : String
  mistral_api_configured : Bool

/-- Environment of one GET /health request: the credential value, the
module-level _converter singleton at entry, and the outcomes of the two
construction attempts the endpoint can make. -/
structure HealthEnv where
  envKey : Option String
  converterGlobal : Option MarkdownConverter
  mistralClientInit : CallResult Unit
  converterInit : CallResult Unit

/-- GET /health, src/app.py lines 80 to 97: compute the configured flag by
truthiness of the credential; if configured, construct the mistral client
and then the converter (via the get_converter singleton logic), translating
any exception into a 500 whose detail wraps the cause; otherwise construct
nothing and report healthy. -/
def health_check (env : HealthEnv) :
    Except (Nat × String) HealthResponse × List HEvent :=
  let configured := pyTruthyStr env.envKey
  if configured then
    match env.mistralClientInit with
    | .raises e =>
        (.error (500, "Service unhealthy: " ++ e), [.attemptedMistralClient])
    | .ok _ =>
      match env.converterGlobal with
      | some _ =>
          (.ok ⟨"healthy", configured⟩, [.attemptedMistralClient])
      | none =>
        match env.converterInit with
        | .raises e =>
            (.error (500, "Service unhealthy: " ++ e),
             [.attemptedMistralClient, .attemptedConverter])
        | .ok _ =>
            (.ok ⟨"healthy", configured⟩,
             [.attemptedMistralClient, .attemptedConverter])
  else
    (.ok ⟨"healthy", configured⟩, [])

/-- Log lines the cleanup task can emit. -/
inductive LogEvent where
  | infoCleaned (path : String)
  | errorCleanup (path : String) (msg : String)
deriving Repr, DecidableEq

/-- os.remove on a filesystem modelled as the list of existing paths, with
an oracle saying which removals the OS refuses; refusal raises. -/
def os_remove (fs : List String) (removeFails : String → Bool) (p : String) :
    Except String (List String) :=
  if removeFails p then .error "Permission denied"
  else .ok (fs.filter (fun q => q != p))

/-- The body of cleanup_temp_file without its try/except, src/app.py lines
73 to 75: the fallible part, which checks existence and removes. -/
def cleanup_body (fs : List String) (removeFails : String → Bool) (p : String) :
    Except String (List String × List LogEvent) :=
  if fs.contains p then
    match os_remove fs removeFails p with
    | .error e => .error e
    | .ok fs2 => .ok (fs2, [.infoCleaned p])
  else
    .ok (fs, [])

/-- cleanup_temp_file, src/app.py lines 70 to 77: the try/except wrapper
around the body; any exception is caught and logged, so the task is total
(its return type carries no error case). -/
def cleanup_temp_file (fs : List String) (removeFails : String → Bool) (p : String) :
    List String × List LogEvent :=
  match cleanup_body fs removeFails p with
  | .ok r => r
  | .error e => (fs, [.errorCleanup p e])

/-- Claim C3: an upload whose filename is missing or does not end in the
case-insensitive extension .pdf is rejected with a 400 client error, and the
event trace is empty, so no scratch file is created for such a request.
Holds for both POST /therapies and POST /radiation, whatever the external
calls would have returned. -/
theorem c3_bad_filename_rejected_before_save
    (fn : Option String) (b : List Nat) (tp : String) (el : Rat)
    (gc : CallResult Unit) (cr : CallResult String) (xr : CallResult (Option RawMap))
    (h : fn = none ∨ ∃ f, fn = some f ∧ pyEndsWith (pyLower f) ".pdf" = false) :
    process_therapy_report ⟨fn, b, tp, el, gc, cr, xr⟩
      = (.httpError 400 "Only PDF files are supported", []) ∧
    process_radiation_report ⟨fn, b, tp, el, gc, cr, xr⟩
      = (.httpError 400 "Only PDF files are supported", []) := by
  have hok : filenameOk fn = false := by
    rcases h with rfl | ⟨f, rfl, hf⟩
    · rfl
    · simp [filenameOk, hf]
  exact ⟨by simp [process_therapy_report, hok], by simp [process_radiation_report, hok]⟩

/-- Witness for C3 at two concrete inputs: a missing filename and the
filename a.txt, each rejected by both endpoints before any file is saved. -/
theorem c3_bad_filename_rejected_before_save_witness :
    (process_therapy_report ⟨none, [1], "/tmp/x.pdf", 1, .ok (), .ok "text", .ok none⟩
      = (.httpError 400 "Only PDF files are supported", []) ∧
     process_radiation_report ⟨none, [1], "/tmp/x.pdf", 1, .ok (), .ok "text", .ok none⟩
      = (.httpError 400 "Only PDF files are supported", [])) ∧
    (process_therapy_report ⟨some "a.txt", [1], "/tmp/x.pdf", 1, .ok (), .ok "text", .ok none⟩
      = (.httpError 400 "Only PDF files are supported", []) ∧
     process_radiation_report ⟨some "a.txt", [1], "/tmp/x.pdf", 1, .ok (), .ok "text", .ok none⟩
      = (.httpError 400 "Only PDF files are supported", [])) :=
  ⟨c3_bad_filename_rejected_before_save none [1] "/tmp/x.pdf" 1 (.ok ()) (.ok "text") (.ok none)
      (Or.inl rfl),
   c3_bad_filename_rejected_before_save (some "a.txt") [1] "/tmp/x.pdf" 1 (.ok ()) (.ok "text")
      (.ok none) (Or.inr ⟨"a.txt", rfl, by decide⟩)⟩

/-- Claim C4: after filename validation passes, an empty or all-whitespace
converted text yields a 400 whose detail reports text-extraction failure and
the extraction client is never called; with non-whitespace text, an absent
(None) or empty extraction mapping yields a 400 whose detail reports
structured-extraction failure and schema validation is never attempted.
Both endpoints. -/
theorem c4_stage_failures_return_400
    (fn : Option String) (b : List Nat) (tp : String) (el : Rat)
    (text : String) (xr : CallResult (Option RawMap))
    (hok : filenameOk fn = true) :
    (pyStripIsEmpty text = true →
      (process_therapy_report ⟨fn, b, tp, el, .ok (), .ok text, xr⟩).1
          = .httpError 400 "Failed to extract text from PDF" ∧
      callsExtractor (process_therapy_report ⟨fn, b, tp, el, .ok (), .ok text, xr⟩).2 = false ∧
      (process_radiation_report ⟨fn, b, tp, el, .ok (), .ok text, xr⟩).1
          = .httpError 400 "Failed to extract text from PDF" ∧
      callsExtractor (process_radiation_report ⟨fn, b, tp, el, .ok (), .ok text, xr⟩).2 = false) ∧
    (pyStripIsEmpty text = false → (xr = .ok none ∨ xr = .ok (some [])) →
      (process_therapy_report ⟨fn, b, tp, el, .ok (), .ok text, xr⟩).1
          = .httpError 400 "Failed to extract structured data from document" ∧
      attemptsValidation (process_therapy_report ⟨fn, b, tp, el, .ok (), .ok text, xr⟩).2 = false ∧
      (process_radiation_report ⟨fn, b, tp, el, .ok (), .ok text, xr⟩).1
          = .httpError 400 "Failed to extract structured data from document" ∧
      attemptsValidation (process_radiation_report ⟨fn, b, tp, el, .ok (), .ok text, xr⟩).2
          = false) := by
  constructor
  · intro ht
    refine ⟨?_, ?_, ?_, ?_⟩ <;>
      simp [process_therapy_report, process_radiation_report, hok, ht, callsExtractor]
  · rintro ht (rfl | rfl) <;> refine ⟨?_, ?_, ?_, ?_⟩ <;>
      simp [process_therapy_report, process_radiation_report, hok, ht, attemptsValidation]

/-- Witness for C4: the whitespace-text case at text two spaces, and the
empty-mapping case at text x with a None extraction result. -/
theorem c4_stage_failures_return_400_witness :
    ((process_therapy_report ⟨some "a.pdf", [1], "/tmp/x.pdf", 1, .ok (), .ok "  ", .ok none⟩).1
        = .httpError 400 "Failed to extract text from PDF" ∧
     callsExtractor
        (process_therapy_report ⟨some "a.pdf", [1], "/tmp/x.pdf", 1, .ok (), .ok "  ", .ok none⟩).2
        = false ∧
     (process_radiation_report ⟨some "a.pdf", [1], "/tmp/x.pdf", 1, .ok (), .ok "  ", .ok none⟩).1
        = .httpError 400 "Failed to extract text from PDF" ∧
     callsExtractor
        (process_radiation_report ⟨some "a.pdf", [1], "/tmp/x.pdf", 1, .ok (), .ok "  ", .ok none⟩).2
        = false) ∧
    ((process_therapy_report ⟨some "a.pdf", [1], "/tmp/x.pdf", 1, .ok (), .ok "x", .ok none⟩).1
        = .httpError 400 "Failed to extract structured data from document" ∧
     attemptsValidation
        (process_therapy_report ⟨some "a.pdf", [1], "/tmp/x.pdf", 1, .ok (), .ok "x", .ok none⟩).2
        = false ∧
     (process_radiation_report ⟨some "a.pdf", [1], "/tmp/x.pdf", 1, .ok (), .ok "x", .ok none⟩).1
        = .httpError 400 "Failed to extract structured data from document" ∧
     attemptsValidation
        (process_radiation_report ⟨some "a.pdf", [1], "/tmp/x.pdf", 1, .ok (), .ok "x", .ok none⟩).2
        = false) :=
  ⟨(c4_stage_failures_return_400 (some "a.pdf") [1] "/tmp/x.pdf" 1 "  " (.ok none)
      (by decide)).1 (by decide),
   (c4_stage_failures_return_400 (some "a.pdf") [1] "/tmp/x.pdf" 1 "x" (.ok none)
      (by decide)).2 (by decide) (Or.inl rfl)⟩

/-- Claim C2: when the extraction client returns a non-empty mapping but
pydantic construction of the relevant report record fails, the handler still
answers success with data equal to the raw unvalidated mapping, logging only
a warning. Each endpoint is governed solely by its own validator: mT is any
mapping failing TherapyReport construction and mR any mapping failing
RadiationTherapyReport construction, independently, so a therapy upload
whose mapping happens to satisfy the radiation schema (or vice versa) is
covered. The handlers are pure functions of their inputs and the fallback
payload is exactly the input mapping, so running the same failing mapping
through a handler twice yields the same fallback payload. -/
theorem c2_validation_failure_lenient_fallback
    (fn : Option String) (f : String) (b : List Nat) (tp : String) (el : Rat)
    (text : String) (mT mR : RawMap)
    (hfn : fn = some f)
    (hok : filenameOk fn = true)
    (ht : pyStripIsEmpty text = false)
    (hmT : mT.isEmpty = false)
    (hvT : therapyValidate mT = none)
    (hmR : mR.isEmpty = false)
    (hvR : radiationValidate mR = none) :
    process_therapy_report ⟨fn, b, tp, el, .ok (), .ok text, .ok (some mT)⟩
      = (.success ⟨true, "Successfully processed therapy report: " ++ f, some mT, some el⟩,
         [.tempFileCreated tp b, .converterCalled tp b, .extractorCalled text,
          .validationAttempted mT, .validationWarned, .cleanupScheduled tp]) ∧
    process_radiation_report ⟨fn, b, tp, el, .ok (), .ok text, .ok (some mR)⟩
      = (.success ⟨true, "Successfully processed radiation therapy report: " ++ f, some mR, some el⟩,
         [.tempFileCreated tp b, .converterCalled tp b, .extractorCalled text,
          .validationAttempted mR, .validationWarned, .cleanupScheduled tp]) := by
  subst hfn
  exact ⟨by simp [process_therapy_report, hok, ht, hmT, hvT],
         by simp [process_radiation_report, hok, ht, hmR, hvR]⟩

/-- Witness for C2 at the cross-schema inputs: the therapy endpoint is fed a
mapping that satisfies the radiation schema but fails TherapyReport
construction (no patient_id), and the radiation endpoint is fed a mapping
that satisfies the therapy schema but fails RadiationTherapyReport
construction (no patient_name); both endpoints still answer success with
the raw mapping they received. -/
theorem c2_validation_failure_lenient_fallback_witness :
    process_therapy_report
        ⟨some "a.pdf", [1], "/tmp/x.pdf", 1, .ok (), .ok "x",
         .ok (some [("patient_name", .vstr "N"), ("test_therapy", .vstr "therapy"),
           ("radiation_type", .vstr "EBRT"), ("start_date", .vdate ⟨2020, 1, 2⟩),
           ("end_date", .vdate ⟨2020, 2, 2⟩), ("fractions", .vint 10),
           ("dosage", .vfloat 30), ("unit", .vstr "GY"), ("area_treated", .vstr "Spine"),
           ("lab_name", .vstr "Lb"), ("lab_location", .vstr "Loc")])⟩
      = (.success ⟨true, "Successfully processed therapy report: " ++ "a.pdf",
           some [("patient_name", .vstr "N"), ("test_therapy", .vstr "therapy"),
             ("radiation_type", .vstr "EBRT"), ("start_date", .vdate ⟨2020, 1, 2⟩),
             ("end_date", .vdate ⟨2020, 2, 2⟩), ("fractions", .vint 10),
             ("dosage", .vfloat 30), ("unit", .vstr "GY"), ("area_treated", .vstr "Spine"),
             ("lab_name", .vstr "Lb"), ("lab_location", .vstr "Loc")], some 1⟩,
         [.tempFileCreated "/tmp/x.pdf" [1], .converterCalled "/tmp/x.pdf" [1],
          .extractorCalled "x",
          .validationAttempted [("patient_name", .vstr "N"), ("test_therapy", .vstr "therapy"),
            ("radiation_type", .vstr "EBRT"), ("start_date", .vdate ⟨2020, 1, 2⟩),
            ("end_date", .vdate ⟨2020, 2, 2⟩), ("fractions", .vint 10),
            ("dosage", .vfloat 30), ("unit", .vstr "GY"), ("area_treated", .vstr "Spine"),
            ("lab_name", .vstr "Lb"), ("lab_location", .vstr "Loc")],
          .validationWarned, .cleanupScheduled "/tmp/x.pdf"]) ∧
    process_radiation_report
        ⟨some "a.pdf", [1], "/tmp/x.pdf", 1, .ok (), .ok "x",
         .ok (some [("patient_id", .vstr "P1"), ("therapy_type", .vstr "Chemotherapy"),
           ("administration_route", .vstr "Intravenous"),
           ("drugs_administered", .vlist [.vobj [("drug_name", .vstr "Docetaxel")]]),
           ("first_date_of_therapy", .vdate ⟨2020, 1, 2⟩),
           ("number_of_cycles", .vint 4), ("cycle_interval_days", .vint 21),
           ("adverse_event_observed", .vbool false),
           ("hospital_name", .vstr "H"), ("hospital_location", .vstr "L")])⟩
      = (.success ⟨true, "Successfully processed radiation therapy report: " ++ "a.pdf",
           some [("patient_id", .vstr "P1"), ("therapy_type", .vstr "Chemotherapy"),
             ("administration_route", .vstr "Intravenous"),
             ("drugs_administered", .vlist [.vobj [("drug_name", .vstr "Docetaxel")]]),
             ("first_date_of_therapy", .vdate ⟨2020, 1, 2⟩),
             ("number_of_cycles", .vint 4), ("cycle_interval_days", .vint 21),
             ("adverse_event_observed", .vbool false),
             ("hospital_name", .vstr "H"), ("hospital_location", .vstr "L")], some 1⟩,
         [.tempFileCreated "/tmp/x.pdf" [1], .converterCalled "/tmp/x.pdf" [1],
          .extractorCalled "x",
          .validationAttempted [("patient_id", .vstr "P1"), ("therapy_type", .vstr "Chemotherapy"),
            ("administration_route", .vstr "Intravenous"),
            ("drugs_administered", .vlist [.vobj [("drug_name", .vstr "Docetaxel")]]),
            ("first_date_of_therapy", .vdate ⟨2020, 1, 2⟩),
            ("number_of_cycles", .vint 4), ("cycle_interval_days", .vint 21),
            ("adverse_event_observed", .vbool false),
            ("hospital_name", .vstr "H"), ("hospital_location", .vstr "L")],
          .validationWarned, .cleanupScheduled "/tmp/x.pdf"]) :=
  c2_validation_failure_lenient_fallback (some "a.pdf") "a.pdf" [1] "/tmp/x.pdf" 1 "x"
    [("patient_name", .vstr "N"), ("test_therapy", .vstr "therapy"),
     ("radiation_type", .vstr "EBRT"), ("start_date", .vdate ⟨2020, 1, 2⟩),
     ("end_date", .vdate ⟨2020, 2, 2⟩), ("fractions", .vint 10),
     ("dosage", .vfloat 30), ("unit", .vstr "GY"), ("area_treated", .vstr "Spine"),
     ("lab_name", .vstr "Lb"), ("lab_location", .vstr "Loc")]
    [("patient_id", .vstr "P1"), ("therapy_type", .vstr "Chemotherapy"),
     ("administration_route", .vstr "Intravenous"),
     ("drugs_administered", .vlist [.vobj [("drug_name", .vstr "Docetaxel")]]),
     ("first_date_of_therapy", .vdate ⟨2020, 1, 2⟩),
     ("number_of_cycles", .vint 4), ("cycle_interval_days", .vint 21),
     ("adverse_event_observed", .vbool false),
     ("hospital_name", .vstr "H"), ("hospital_location", .vstr "L")]
    rfl (by decide) (by decide) rfl rfl rfl rfl

/-- Claim C5: when the report record constructs successfully, the response
envelope has success true, a message that contains the original filename,
processing time equal to the elapsed wall time measured by the handler, and
data exactly equal to the model dump of the constructed record. Both
endpoints, each with its own validated mapping. -/
theorem c5_success_envelope_is_model_dump
    (fn : Option String) (f : String) (b : List Nat) (tp : String) (el : Rat)
    (text : String) (mT : RawMap) (rT : TherapyReport)
    (mR : RawMap) (rR : RadiationTherapyReport)
    (hfn : fn = some f)
    (hok : filenameOk fn = true)
    (ht : pyStripIsEmpty text = false)
    (hmT : mT.isEmpty = false)
    (hvT : therapyValidate mT = some rT)
    (hmR : mR.isEmpty = false)
    (hvR : radiationValidate mR = some rR) :
    (process_therapy_report ⟨fn, b, tp, el, .ok (), .ok text, .ok (some mT)⟩).1
      = .success ⟨true, "Successfully processed therapy report: " ++ f,
          some rT.model_dump, some el⟩ ∧
    (∃ pre post, "Successfully processed therapy report: " ++ f = pre ++ f ++ post) ∧
    (process_radiation_report ⟨fn, b, tp, el, .ok (), .ok text, .ok (some mR)⟩).1
      = .success ⟨true, "Successfully processed radiation therapy report: " ++ f,
          some rR.model_dump, some el⟩ ∧
    (∃ pre post, "Successfully processed radiation therapy report: " ++ f = pre ++ f ++ post) := by
  subst hfn
  refine ⟨by simp [process_therapy_report, hok, ht, hmT, hvT],
    ⟨"Successfully processed therapy report: ", "", by rw [String.append_empty]⟩,
    by simp [process_radiation_report, hok, ht, hmR, hvR],
    ⟨"Successfully processed radiation therapy report: ", "", by rw [String.append_empty]⟩⟩

/-- Witness for C5: fully valid therapy and radiation mappings; the data
payloads are the model dumps of the constructed records, in which the
optional fields the mappings omitted appear as explicit nulls. -/
theorem c5_success_envelope_is_model_dump_witness :
    (process_therapy_report ⟨some "a.pdf", [1], "/tmp/x.pdf", 1, .ok (), .ok "x",
        .ok (some [("patient_id", .vstr "P1"), ("therapy_type", .vstr "Chemotherapy"),
          ("administration_route", .vstr "Intravenous"),
          ("drugs_administered", .vlist [.vobj [("drug_name", .vstr "Docetaxel")]]),
          ("first_date_of_therapy", .vdate ⟨2020, 1, 2⟩),
          ("number_of_cycles", .vint 4), ("cycle_interval_days", .vint 21),
          ("adverse_event_observed", .vbool false),
          ("hospital_name", .vstr "H"), ("hospital_location", .vstr "L")])⟩).1
      = .success ⟨true, "Successfully processed therapy report: " ++ "a.pdf",
          some (TherapyReport.model_dump ⟨"P1", "Chemotherapy", "Intravenous",
            [⟨"Docetaxel", none, none⟩], ⟨2020, 1, 2⟩, 4, 21, false, none, none, "H", "L"⟩),
          some 1⟩ ∧
    (∃ pre post, "Successfully processed therapy report: " ++ "a.pdf" = pre ++ "a.pdf" ++ post) ∧
    (process_radiation_report ⟨some "a.pdf", [1], "/tmp/x.pdf", 1, .ok (), .ok "x",
        .ok (some [("patient_name", .vstr "N"), ("test_therapy", .vstr "therapy"),
          ("radiation_type", .vstr "EBRT"), ("start_date", .vdate ⟨2020, 1, 2⟩),
          ("end_date", .vdate ⟨2020, 2, 2⟩), ("fractions", .vint 10),
          ("dosage", .vfloat 30), ("unit", .vstr "GY"), ("area_treated", .vstr "Spine"),
          ("lab_name", .vstr "Lb"), ("lab_location", .vstr "Loc")])⟩).1
      = .success ⟨true, "Successfully processed radiation therapy report: " ++ "a.pdf",
          some (RadiationTherapyReport.model_dump ⟨"N", "therapy", "EBRT", ⟨2020, 1, 2⟩,
            ⟨2020, 2, 2⟩, 10, 30, "GY", "Spine", none, none, "Lb", "Loc", none⟩),
          some 1⟩ ∧
    (∃ pre post,
      "Successfully processed radiation therapy report: " ++ "a.pdf" = pre ++ "a.pdf" ++ post) :=
  c5_success_envelope_is_model_dump (some "a.pdf") "a.pdf" [1] "/tmp/x.pdf" 1 "x"
    [("patient_id", .vstr "P1"), ("therapy_type", .vstr "Chemotherapy"),
     ("administration_route", .vstr "Intravenous"),
     ("drugs_administered", .vlist [.vobj [("drug_name", .vstr "Docetaxel")]]),
     ("first_date_of_therapy", .vdate ⟨2020, 1, 2⟩),
     ("number_of_cycles", .vint 4), ("cycle_interval_days", .vint 21),
     ("adverse_event_observed", .vbool false),
     ("hospital_name", .vstr "H"), ("hospital_location", .vstr "L")]
    ⟨"P1", "Chemotherapy", "Intravenous", [⟨"Docetaxel", none, none⟩], ⟨2020, 1, 2⟩,
      4, 21, false, none, none, "H", "L"⟩
    [("patient_name", .vstr "N"), ("test_therapy", .vstr "therapy"),
     ("radiation_type", .vstr "EBRT"), ("start_date", .vdate ⟨2020, 1, 2⟩),
     ("end_date", .vdate ⟨2020, 2, 2⟩), ("fractions", .vint 10),
     ("dosage", .vfloat 30), ("unit", .vstr "GY"), ("area_treated", .vstr "Spine"),
     ("lab_name", .vstr "Lb"), ("lab_location", .vstr "Loc")]
    ⟨"N", "therapy", "EBRT", ⟨2020, 1, 2⟩, ⟨2020, 2, 2⟩, 10, 30, "GY", "Spine",
      none, none, "Lb", "Loc", none⟩
    rfl (by decide) (by decide) rfl rfl rfl rfl

/-- Claim C1 evaluated at its failing inputs: the claim states that every
failure after the scratch file is created still schedules cleanup, on 400
exits as well as 500 exits. The code refutes the 400 half: an HTTPException
raised for empty converted text or an empty extraction result is re-raised
by the bare except HTTPException branch without scheduling cleanup, so the
scratch file leaks; only the generic except Exception branch (500) and the
success path schedule cleanup. The last conjunct shows the contrasting 500
exit, which does schedule cleanup as the claim says. -/
theorem c1_cleanup_not_scheduled_on_400_exits :
    ((process_therapy_report
        ⟨some "report.pdf", [37, 80], "/tmp/a.pdf", 1, .ok (), .ok "  ", .ok none⟩).1
      = .httpError 400 "Failed to extract text from PDF" ∧
     createsTempFile (process_therapy_report
        ⟨some "report.pdf", [37, 80], "/tmp/a.pdf", 1, .ok (), .ok "  ", .ok none⟩).2 = true ∧
     schedulesCleanup (process_therapy_report
        ⟨some "report.pdf", [37, 80], "/tmp/a.pdf", 1, .ok (), .ok "  ", .ok none⟩).2 = false) ∧
    ((process_radiation_report
        ⟨some "report.pdf", [37, 80], "/tmp/b.pdf", 1, .ok (), .ok "text", .ok none⟩).1
      = .httpError 400 "Failed to extract structured data from document" ∧
     createsTempFile (process_radiation_report
        ⟨some "report.pdf", [37, 80], "/tmp/b.pdf", 1, .ok (), .ok "text", .ok none⟩).2 = true ∧
     schedulesCleanup (process_radiation_report
        ⟨some "report.pdf", [37, 80], "/tmp/b.pdf", 1, .ok (), .ok "text", .ok none⟩).2 = false) ∧
    schedulesCleanup (process_therapy_report
        ⟨some "report.pdf", [37, 80], "/tmp/c.pdf", 1, .ok (), .raises "boom", .ok none⟩).2
      = true :=
  ⟨⟨rfl, rfl, rfl⟩, ⟨rfl, rfl, rfl⟩, rfl⟩

/-- Claim C6: with the credential absent the health check returns healthy
with the configured flag false, raises nothing and attempts no client
construction; with the credential present, a raising construction of either
the extraction client or the converter surfaces as a 500 whose detail wraps
the underlying cause. -/
theorem c6_health_check_configuration
    (g : Option MarkdownConverter) (i1 ci : CallResult Unit)
    (k : Option String) (e : String)
    (hk : pyTruthyStr k = true) :
    health_check ⟨none, g, i1, ci⟩ = (.ok ⟨"healthy", false⟩, []) ∧
    health_check ⟨k, g, .raises e, ci⟩
      = (.error (500, "Service unhealthy: " ++ e), [.attemptedMistralClient]) ∧
    health_check ⟨k, none, .ok (), .raises e⟩
      = (.error (500, "Service unhealthy: " ++ e),
         [.attemptedMistralClient, .attemptedConverter]) ∧
    (∃ pre, "Service unhealthy: " ++ e = pre ++ e) := by
  refine ⟨rfl, ?_, ?_, ⟨"Service unhealthy: ", rfl⟩⟩ <;> simp [health_check, hk]

/-- Witness for C6 with the credential set to the word key and a raising
construction with message boom. -/
theorem c6_health_check_configuration_witness :
    health_check ⟨none, none, .ok (), .ok ()⟩ = (.ok ⟨"healthy", false⟩, []) ∧
    health_check ⟨some "key", none, .raises "boom", .ok ()⟩
      = (.error (500, "Service unhealthy: " ++ "boom"), [.attemptedMistralClient]) ∧
    health_check ⟨some "key", none, .ok (), .raises "boom"⟩
      = (.error (500, "Service unhealthy: " ++ "boom"),
         [.attemptedMistralClient, .attemptedConverter]) ∧
    (∃ pre, "Service unhealthy: " ++ "boom" = pre ++ "boom") :=
  c6_health_check_configuration none (.ok ()) (.ok ()) (some "key") "boom" (by decide)

/-- Counterexample to claim C7 as stated: the claim says the first call to
get_converter raises if and only if the credential environment variable is
unset, but a credential that is set to the empty string also makes the
first call raise. -/
theorem c7_counterexample_empty_string_credential :
    get_converter none (some "")
      = Except.error "MISTRAL_API_KEY environment variable not set." ∧
    some "" ≠ (none : Option String) :=
  ⟨rfl, by simp⟩

/-- Claim C7 as amended: the first call to get_converter raises a fail-fast
configuration error if and only if the credential environment variable is
unset or set to the empty string; a successful first call stores the handle
it returns; and once a handle is stored, every call returns that same
handle with the credential never re-checked (the result does not depend on
the environment value at all). -/
theorem c7_lazy_singleton_converter
    (k : Option String) (c : MarkdownConverter) :
    ((∃ e, get_converter none k = .error e) ↔ (k = none ∨ k = some "")) ∧
    get_converter (some c) k = .ok (c, some c) ∧
    (∀ k₂, get_converter (some c) k = get_converter (some c) k₂) ∧
    (∀ h st, get_converter none k = .ok (h, st) → st = some h) := by
  refine ⟨?_, rfl, fun k₂ => rfl, ?_⟩
  · cases k with
    | none => simp [get_converter, pyTruthyStr]
    | some s =>
      cases s with
      | mk data =>
        cases data with
        | nil => simp [get_converter, pyTruthyStr]
        | cons c cs =>
          simp only [get_converter, pyTruthyStr, List.isEmpty_cons, Bool.not_false,
            Bool.not_true, if_false, reduceCtorEq, exists_false, false_iff, not_or]
          exact ⟨by simp,
            fun hcon =>
              List.cons_ne_nil c cs (congrArg String.data (Option.some_injective _ hcon))⟩
  · intro h st
    cases k with
    | none => simp [get_converter, pyTruthyStr]
    | some s =>
      cases s with
      | mk data =>
        cases data with
        | nil => simp [get_converter, pyTruthyStr]
        | cons c cs =>
          simp [get_converter, pyTruthyStr]
          rintro rfl rfl
          rfl

/-- Witness for C7 as amended, at a stored handle built from the word key
and a successful first call: the branches with hypotheses are discharged at
concrete inputs. -/
theorem c7_lazy_singleton_converter_witness :
    get_converter (some ⟨"key"⟩) (some "other") = .ok (⟨"key"⟩, some ⟨"key"⟩) ∧
    ((∃ e, get_converter none (some "key") = .error e)
        ↔ ((some "key" : Option String) = none ∨ (some "key" : Option String) = some "")) ∧
    (some (⟨"key"⟩ : MarkdownConverter) = some ⟨"key"⟩) :=
  ⟨(c7_lazy_singleton_converter (some "other") ⟨"key"⟩).2.1,
   (c7_lazy_singleton_converter (some "key") ⟨"key"⟩).1,
   (c7_lazy_singleton_converter (some "key") ⟨"key"⟩).2.2.2 ⟨"key"⟩ (some ⟨"key"⟩) rfl⟩

/-- Claim C10: a credential set to the empty string is treated everywhere
as absent. The health check reports the configured flag false, stays
healthy and constructs nothing (truthiness of the value, not key presence),
with exactly the same outcome as when the variable is unset, and the first
call to get_converter raises the same fail-fast error as in the unset
case. -/
theorem c10_empty_credential_treated_as_absent
    (g : Option MarkdownConverter) (i1 ci : CallResult Unit) :
    health_check ⟨some "", g, i1, ci⟩ = (.ok ⟨"healthy", false⟩, []) ∧
    health_check ⟨some "", g, i1, ci⟩ = health_check ⟨none, g, i1, ci⟩ ∧
    get_converter none (some "") = get_converter none none ∧
    get_converter none (some "")
      = .error "MISTRAL_API_KEY environment variable not set." :=
  ⟨rfl, rfl, rfl, rfl⟩

/-- Claim C8: cleanup_temp_file is total and never escalates. Its return
type has no error case, so it cannot raise; a path that does not exist makes
it a no-op with no log output; every exception the fallible body raises is
caught and turned into a single error log line with the filesystem left
untouched; and a successful body is passed through unchanged. -/
theorem c8_cleanup_total_never_escalates
    (fs : List String) (removeFails : String → Bool) (p : String) :
    (fs.contains p = false → cleanup_temp_file fs removeFails p = (fs, [])) ∧
    (∀ e, cleanup_body fs removeFails p = .error e →
      cleanup_temp_file fs removeFails p = (fs, [.errorCleanup p e])) ∧
    (∀ r, cleanup_body fs removeFails p = .ok r →
      cleanup_temp_file fs removeFails p = r) := by
  refine ⟨?_, ?_, ?_⟩
  · intro hmiss
    simp only [cleanup_temp_file, cleanup_body, hmiss]
    rfl
  · intro e he
    simp [cleanup_temp_file, he]
  · intro r hr
    simp [cleanup_temp_file, hr]

/-- Witness for C8: a refused removal of an existing file is logged with
the filesystem unchanged, and a missing file is a silent no-op. -/
theorem c8_cleanup_total_never_escalates_witness :
    cleanup_temp_file ["/tmp/a.pdf"] (fun _ => true) "/tmp/a.pdf"
      = (["/tmp/a.pdf"], [.errorCleanup "/tmp/a.pdf" "Permission denied"]) ∧
    cleanup_temp_file ["/tmp/a.pdf"] (fun _ => false) "/tmp/b.pdf" = (["/tmp/a.pdf"], []) :=
  ⟨(c8_cleanup_total_never_escalates ["/tmp/a.pdf"] (fun _ => true) "/tmp/a.pdf").2.1
      "Permission denied" rfl,
   (c8_cleanup_total_never_escalates ["/tmp/a.pdf"] (fun _ => false) "/tmp/b.pdf").1 rfl⟩

/-- After validation passes, every exit of the therapy handler has the
scratch-file creation as the first event of its trace. -/
theorem therapy_trace_starts_with_save
    (fn : Option String) (b : List Nat) (tp : String) (el : Rat)
    (gc : CallResult Unit) (cr : CallResult String) (xr : CallResult (Option RawMap))
    (hok : filenameOk fn = true) :
    (process_therapy_report ⟨fn, b, tp, el, gc, cr, xr⟩).2.head?
      = some (.tempFileCreated tp b) := by
  cases gc with
  | raises e => simp [process_therapy_report, hok]
  | ok u =>
    cases cr with
    | raises e => simp [process_therapy_report, hok]
    | ok text =>
      cases htx : pyStripIsEmpty text with
      | true => simp [process_therapy_report, hok, htx]
      | false =>
        cases xr with
        | raises e => simp [process_therapy_report, hok, htx]
        | ok om =>
          cases om with
          | none => simp [process_therapy_report, hok, htx]
          | some m =>
            cases hm : m.isEmpty with
            | true => simp [process_therapy_report, hok, htx, hm]
            | false =>
              cases hv : therapyValidate m <;>
                simp [process_therapy_report, hok, htx, hm, hv]

/-- After validation passes, every exit of the radiation handler has the
scratch-file creation as the first event of its trace. -/
theorem radiation_trace_starts_with_save
    (fn : Option String) (b : List Nat) (tp : String) (el : Rat)
    (gc : CallResult Unit) (cr : CallResult String) (xr : CallResult (Option RawMap))
    (hok : filenameOk fn = true) :
    (process_radiation_report ⟨fn, b, tp, el, gc, cr, xr⟩).2.head?
      = some (.tempFileCreated tp b) := by
  cases gc with
  | raises e => simp [process_radiation_report, hok]
  | ok u =>
    cases cr with
    | raises e => simp [process_radiation_report, hok]
    | ok text =>
      cases htx : pyStripIsEmpty text with
      | true => simp [process_radiation_report, hok, htx]
      | false =>
        cases xr with
        | raises e => simp [process_radiation_report, hok, htx]
        | ok om =>
          cases om with
          | none => simp [process_radiation_report, hok, htx]
          | some m =>
            cases hm : m.isEmpty with
            | true => simp [process_radiation_report, hok, htx, hm]
            | false =>
              cases hv : radiationValidate m <;>
                simp [process_radiation_report, hok, htx, hm, hv]

/-- When the converter handle is obtained, every exit of the therapy
handler has the converter call, on the scratch path holding exactly the
uploaded bytes, as the second event of its trace. -/
theorem therapy_trace_calls_converter
    (fn : Option String) (b : List Nat) (tp : String) (el : Rat)
    (cr : CallResult String) (xr : CallResult (Option RawMap))
    (hok : filenameOk fn = true) :
    (process_therapy_report ⟨fn, b, tp, el, .ok (), cr, xr⟩).2[1]?
      = some (.converterCalled tp b) := by
  cases cr with
  | raises e => simp [process_therapy_report, hok]
  | ok text =>
    cases htx : pyStripIsEmpty text with
    | true => simp [process_therapy_report, hok, htx]
    | false =>
      cases xr with
      | raises e => simp [process_therapy_report, hok, htx]
      | ok om =>
        cases om with
        | none => simp [process_therapy_report, hok, htx]
        | some m =>
          cases hm : m.isEmpty with
          | true => simp [process_therapy_report, hok, htx, hm]
          | false =>
            cases hv : therapyValidate m <;>
              simp [process_therapy_report, hok, htx, hm, hv]

/-- When the converter handle is obtained, every exit of the radiation
handler has the converter call, on the scratch path holding exactly the
uploaded bytes, as the second event of its trace. -/
theorem radiation_trace_calls_converter
    (fn : Option String) (b : List Nat) (tp : String) (el : Rat)
    (cr : CallResult String) (xr : CallResult (Option RawMap))
    (hok : filenameOk fn = true) :
    (process_radiation_report ⟨fn, b, tp, el, .ok (), cr, xr⟩).2[1]?
      = some (.converterCalled tp b) := by
  cases cr with
  | raises e => simp [process_radiation_report, hok]
  | ok text =>
    cases htx : pyStripIsEmpty text with
    | true => simp [process_radiation_report, hok, htx]
    | false =>
      cases xr with
      | raises e => simp [process_radiation_report, hok, htx]
      | ok om =>
        cases om with
        | none => simp [process_radiation_report, hok, htx]
        | some m =>
          cases hm : m.isEmpty with
          | true => simp [process_radiation_report, hok, htx, hm]
          | false =>
            cases hv : radiationValidate m <;>
              simp [process_radiation_report, hok, htx, hm, hv]

/-- Claim C9: upload validation inspects only the filename. Any filename
whose lowercase form ends in .pdf passes validation, whatever bytes were
uploaded (the bytes b are universally quantified and never examined); the
bytes are written to the scratch file and the converter is invoked on that
scratch path holding exactly those bytes, for both endpoints. The filename
consisting of the bare extension .pdf is covered by the witness. -/
theorem c9_validation_inspects_only_filename
    (f : String) (b : List Nat) (tp : String) (el : Rat)
    (gc : CallResult Unit) (cr : CallResult String) (xr : CallResult (Option RawMap))
    (h : pyEndsWith (pyLower f) ".pdf" = true) :
    filenameOk (some f) = true ∧
    (process_therapy_report ⟨some f, b, tp, el, gc, cr, xr⟩).2.head?
      = some (.tempFileCreated tp b) ∧
    (process_therapy_report ⟨some f, b, tp, el, .ok (), cr, xr⟩).2[1]?
      = some (.converterCalled tp b) ∧
    (process_radiation_report ⟨some f, b, tp, el, gc, cr, xr⟩).2.head?
      = some (.tempFileCreated tp b) ∧
    (process_radiation_report ⟨some f, b, tp, el, .ok (), cr, xr⟩).2[1]?
      = some (.converterCalled tp b) := by
  have hok : filenameOk (some f) = true := by
    cases f with
    | mk data =>
      cases data with
      | nil => exact absurd h (by decide)
      | cons c cs => simp only [filenameOk, List.isEmpty_cons, Bool.not_false, h, Bool.and_self]
  exact ⟨hok,
    therapy_trace_starts_with_save (some f) b tp el gc cr xr hok,
    therapy_trace_calls_converter (some f) b tp el cr xr hok,
    radiation_trace_starts_with_save (some f) b tp el gc cr xr hok,
    radiation_trace_calls_converter (some f) b tp el cr xr hok⟩

/-- Witness for C9 at the filename consisting solely of the extension .pdf
and a byte stream that is not a PDF document: validation passes and the
bytes reach the scratch file and the converter unchanged. -/
theorem c9_validation_inspects_only_filename_witness :
    filenameOk (some ".pdf") = true ∧
    (process_therapy_report
        ⟨some ".pdf", [0, 255], "/tmp/x.pdf", 1, .ok (), .ok "x", .ok none⟩).2.head?
      = some (.tempFileCreated "/tmp/x.pdf" [0, 255]) ∧
    (process_therapy_report
        ⟨some ".pdf", [0, 255], "/tmp/x.pdf", 1, .ok (), .ok "x", .ok none⟩).2[1]?
      = some (.converterCalled "/tmp/x.pdf" [0, 255]) ∧
    (process_radiation_report
        ⟨some ".pdf", [0, 255], "/tmp/x.pdf", 1, .ok (), .ok "x", .ok none⟩).2.head?
      = some (.tempFileCreated "/tmp/x.pdf" [0, 255]) ∧
    (process_radiation_report
        ⟨some ".pdf", [0, 255], "/tmp/x.pdf", 1, .ok (), .ok "x", .ok none⟩).2[1]?
      = some (.converterCalled "/tmp/x.pdf" [0, 255]) :=
  c9_validation_inspects_only_filename ".pdf" [0, 255] "/tmp/x.pdf" 1 (.ok ()) (.ok "x")
    (.ok none) (by decide)

end TherapiesApi
